import Mathlib

/-!
Shallow embedding of the Pomodoro timer extension (`src/extension.ts`,
class `PomodoroTimer`).  The mutable fields of the class become a state
record, each method becomes a pure state-transforming function, and the
`setInterval` / `clearInterval` driver is modelled by a stored-handle
flag (`this.timer !== null`) together with a count of live intervals.
Wall-clock reads (`Date.now()`) become explicit `now` parameters.
-/

/-- Configuration values read from `vscode.workspace.getConfiguration`
at `start()` time: `workDuration`, `breakDuration`, `longBreakDuration`
(minutes) and `sessionsBeforeLongBreak` (count). -/
structure Settings where
  workDuration : Nat
  breakDuration : Nat
  longBreakDuration : Nat
  sessionsBeforeLongBreak : Nat
  deriving Repr, DecidableEq

/-- The mutable fields of class `PomodoroTimer`:
`timeLeft`, `isRunning`, `isWorkSession`, `sessionsCompleted`,
`lastUpdateTime`, plus the driver model: `hasTimer` is
`this.timer !== null` and `activeIntervals` counts the live
`setInterval` drivers attached to this instance. -/
structure TimerState where
  timeLeft : Int
  isRunning : Bool
  isWorkSession : Bool
  sessionsCompleted : Nat
  lastUpdateTime : Int
  hasTimer : Bool
  activeIntervals : Nat
  deriving Repr, DecidableEq

namespace PomodoroTimer

/-- The constructor state: `timeLeft = 0`, `isRunning = false`,
`isWorkSession = true`, `sessionsCompleted = 0`,
`lastUpdateTime = Date.now()` (the parameter `t0`), no driver. -/
def initState (t0 : Int) : TimerState :=
  { timeLeft := 0
    isRunning := false
    isWorkSession := true
    sessionsCompleted := 0
    lastUpdateTime := t0
    hasTimer := false
    activeIntervals := 0 }

/-- `start()` (extension.ts lines 173–200): early return if running;
if `timeLeft === 0` compute the next interval (`isLongBreak` exactly
when not a work session, `sessionsCompleted > 0` and
`sessionsCompleted % sessionsBeforeLongBreak === 0`); then set
`isRunning`, record `Date.now()` and install a `setInterval` driver. -/
def start (cfg : Settings) (now : Int) (s : TimerState) : TimerState :=
  if s.isRunning then s
  else
    let s1 :=
      if s.timeLeft = 0 then
        if s.isWorkSession then
          { s with timeLeft := (cfg.workDuration : Int) * 60 }
        else if 0 < s.sessionsCompleted ∧
            s.sessionsCompleted % cfg.sessionsBeforeLongBreak = 0 then
          { s with timeLeft := (cfg.longBreakDuration : Int) * 60 }
        else
          { s with timeLeft := (cfg.breakDuration : Int) * 60 }
      else s
    { s1 with
        isRunning := true
        lastUpdateTime := now
        hasTimer := true
        activeIntervals := s1.activeIntervals + 1 }

/-- `stop()` (lines 202–208): `clearInterval` on the stored handle,
null the handle, clear `isRunning`.  Everything else is untouched. -/
def stop (s : TimerState) : TimerState :=
  { s with
      activeIntervals :=
        if s.hasTimer then s.activeIntervals - 1 else s.activeIntervals
      hasTimer := false
      isRunning := false }

/-- `reset()` (lines 210–217): `stop()`, then zero `timeLeft`, return to
the work session and zero `sessionsCompleted`. -/
def reset (s : TimerState) : TimerState :=
  let s1 := stop s
  { s1 with timeLeft := 0, isWorkSession := true, sessionsCompleted := 0 }

/-- `onTimerEnd()` (lines 237–254): `stop()`, then branch on the phase:
a finished work session bumps `sessionsCompleted`, notifies and flips
to break; a finished break notifies and flips to work; both zero
`timeLeft`.  The second component is the `playNotification` message. -/
def onTimerEnd (s : TimerState) : TimerState × String :=
  let s1 := stop s
  if s1.isWorkSession then
    ({ s1 with
        sessionsCompleted := s1.sessionsCompleted + 1
        isWorkSession := false
        timeLeft := 0 },
      "Work session completed!")
  else
    ({ s1 with isWorkSession := true, timeLeft := 0 },
      "Break time over, ready to work!")

/-- `tick()` (lines 219–235): `elapsed = Math.floor((now - lastUpdateTime)
/ 1000)`; when `elapsed >= 1`, subtract it from `timeLeft` and set
`lastUpdateTime = now`; if `timeLeft <= 0` afterwards, run
`onTimerEnd()`.  The second component is the notification, if any. -/
def tick (now : Int) (s : TimerState) : TimerState × Option String :=
  let elapsed := Int.fdiv (now - s.lastUpdateTime) 1000
  if 1 ≤ elapsed then
    let s1 := { s with timeLeft := s.timeLeft - elapsed, lastUpdateTime := now }
    if s1.timeLeft ≤ 0 then
      let p := onTimerEnd s1
      (p.1, some p.2)
    else
      (s1, none)
  else
    (s, none)

/-- Model of JavaScript `String.prototype.padStart(2, '0')`. -/
def padStart2 (str : String) : String :=
  if str.length < 2 then
    String.mk (List.replicate (2 - str.length) '0') ++ str
  else
    str

/-- The `timeStr` computed by `updateStatusBar()` (lines 287–290):
`Math.floor(timeLeft / 60)` and `timeLeft % 60` (JavaScript truncated
remainder), each rendered in decimal and padded with `padStart(2, '0')`,
joined by a colon. -/
def timeStr (timeLeft : Int) : String :=
  let minutes := Int.fdiv timeLeft 60
  let seconds := Int.tmod timeLeft 60
  padStart2 (toString minutes) ++ ":" ++ padStart2 (toString seconds)

/-- The interval length, in seconds, that `start()` loads when
`timeLeft = 0`: the body of lines 182–193 as a function. -/
def nextIntervalSeconds (cfg : Settings) (s : TimerState) : Int :=
  if s.isWorkSession then (cfg.workDuration : Int) * 60
  else if 0 < s.sessionsCompleted ∧
      s.sessionsCompleted % cfg.sessionsBeforeLongBreak = 0 then
    (cfg.longBreakDuration : Int) * 60
  else (cfg.breakDuration : Int) * 60

end PomodoroTimer

open PomodoroTimer in
/-- States reachable from the constructor state through the four
state-machine commands, with arbitrary configuration values and
arbitrary wall-clock readings. -/
inductive Reachable : TimerState → Prop where
  | init (t0 : Int) : Reachable (initState t0)
  | stepStart (cfg : Settings) (now : Int) {s : TimerState} :
      Reachable s → Reachable (start cfg now s)
  | stepStop {s : TimerState} : Reachable s → Reachable (stop s)
  | stepReset {s : TimerState} : Reachable s → Reachable (reset s)
  | stepTick (now : Int) {s : TimerState} :
      Reachable s → Reachable (tick now s).1

/-- Specification-side zero padding: two decimal digits. -/
def zeroPad2 (n : Nat) : String :=
  if n < 10 then "0" ++ Nat.repr n else Nat.repr n

/-- Specification-side MM:SS rendering of a nonnegative second count. -/
def mmss (R : Nat) : String :=
  zeroPad2 (R / 60) ++ ":" ++ zeroPad2 (R % 60)

namespace PomodoroTimer

theorem start_eq_running {cfg : Settings} {now : Int} {s : TimerState}
    (h : s.isRunning = true) : start cfg now s = s := by
  simp [start, h]

theorem start_isRunning (cfg : Settings) (now : Int) (s : TimerState) :
    (start cfg now s).isRunning = true := by
  simp only [start]
  split
  · assumption
  · rfl

theorem start_eq_resume {cfg : Settings} {now : Int} {s : TimerState}
    (h : s.isRunning = false) (hz : s.timeLeft ≠ 0) :
    start cfg now s =
      { s with
          isRunning := true
          lastUpdateTime := now
          hasTimer := true
          activeIntervals := s.activeIntervals + 1 } := by
  simp [start, h, hz]

theorem start_eq_fresh {cfg : Settings} {now : Int} {s : TimerState}
    (h : s.isRunning = false) (hz : s.timeLeft = 0) :
    start cfg now s =
      { s with
          timeLeft := nextIntervalSeconds cfg s
          isRunning := true
          lastUpdateTime := now
          hasTimer := true
          activeIntervals := s.activeIntervals + 1 } := by
  simp only [start, h, Bool.false_eq_true, if_false, hz, if_true,
    nextIntervalSeconds]
  cases hw : s.isWorkSession
  · simp only [hw, Bool.false_eq_true, if_false]
    split_ifs <;> simp
  · simp [hw]

theorem stop_eq (s : TimerState) :
    stop s =
      { s with
          isRunning := false
          hasTimer := false
          activeIntervals :=
            if s.hasTimer then s.activeIntervals - 1 else s.activeIntervals } :=
  rfl

theorem onTimerEnd_work {s : TimerState} (h : s.isWorkSession = true) :
    onTimerEnd s =
      ({ timeLeft := 0
         isRunning := false
         isWorkSession := false
         sessionsCompleted := s.sessionsCompleted + 1
         lastUpdateTime := s.lastUpdateTime
         hasTimer := false
         activeIntervals :=
           if s.hasTimer then s.activeIntervals - 1 else s.activeIntervals },
        "Work session completed!") := by
  simp [onTimerEnd, stop, h]

theorem onTimerEnd_break {s : TimerState} (h : s.isWorkSession = false) :
    onTimerEnd s =
      ({ timeLeft := 0
         isRunning := false
         isWorkSession := true
         sessionsCompleted := s.sessionsCompleted
         lastUpdateTime := s.lastUpdateTime
         hasTimer := false
         activeIntervals :=
           if s.hasTimer then s.activeIntervals - 1 else s.activeIntervals },
        "Break time over, ready to work!") := by
  simp [onTimerEnd, stop, h]

theorem tick_none {now : Int} {s : TimerState}
    (h : Int.fdiv (now - s.lastUpdateTime) 1000 < 1) :
    tick now s = (s, none) := by
  have hn : ¬ 1 ≤ Int.fdiv (now - s.lastUpdateTime) 1000 := by omega
  simp [tick, hn]

theorem tick_run {now : Int} {s : TimerState}
    (he : 1 ≤ Int.fdiv (now - s.lastUpdateTime) 1000)
    (hp : 0 < s.timeLeft - Int.fdiv (now - s.lastUpdateTime) 1000) :
    tick now s =
      ({ s with
          timeLeft := s.timeLeft - Int.fdiv (now - s.lastUpdateTime) 1000
          lastUpdateTime := now }, none) := by
  have hn : ¬ s.timeLeft - Int.fdiv (now - s.lastUpdateTime) 1000 ≤ 0 := by
    omega
  simp [tick, he, hn]

theorem tick_expire {now : Int} {s : TimerState}
    (he : 1 ≤ Int.fdiv (now - s.lastUpdateTime) 1000)
    (hp : s.timeLeft - Int.fdiv (now - s.lastUpdateTime) 1000 ≤ 0) :
    tick now s =
      ((onTimerEnd
          { s with
              timeLeft := s.timeLeft - Int.fdiv (now - s.lastUpdateTime) 1000
              lastUpdateTime := now }).1,
        some (onTimerEnd
          { s with
              timeLeft := s.timeLeft - Int.fdiv (now - s.lastUpdateTime) 1000
              lastUpdateTime := now }).2) := by
  simp [tick, he, hp]

end PomodoroTimer

/-- Every reachable state has a nonnegative `timeLeft`, a stored handle
exactly when running, and exactly one live interval exactly when
running. -/
theorem reachable_inv {s : TimerState} (h : Reachable s) :
    0 ≤ s.timeLeft ∧ s.hasTimer = s.isRunning ∧
      s.activeIntervals = if s.isRunning then 1 else 0 := by
  induction h with
  | init t0 => simp [PomodoroTimer.initState]
  | @stepStart cfg now t hr ih =>
    obtain ⟨h1, h2, h3⟩ := ih
    cases hrun : t.isRunning
    · rw [hrun] at h3
      simp only [Bool.false_eq_true, if_false] at h3
      by_cases hz : t.timeLeft = 0
      · rw [PomodoroTimer.start_eq_fresh hrun hz]
        refine ⟨?_, by simp, by simp [h3]⟩
        simp only [PomodoroTimer.nextIntervalSeconds]
        split_ifs <;> simp
      · rw [PomodoroTimer.start_eq_resume hrun hz]
        exact ⟨h1, by simp, by simp [h3]⟩
    · rw [PomodoroTimer.start_eq_running hrun]
      exact ⟨h1, h2, h3⟩
  | @stepStop t hr ih =>
    obtain ⟨h1, h2, h3⟩ := ih
    rw [PomodoroTimer.stop_eq]
    refine ⟨h1, by simp, ?_⟩
    rw [h2]
    cases hrun : t.isRunning <;> rw [hrun] at h3 <;> simp [h3]
  | @stepReset t hr ih =>
    obtain ⟨h1, h2, h3⟩ := ih
    simp only [PomodoroTimer.reset, PomodoroTimer.stop_eq]
    refine ⟨by simp, by simp, ?_⟩
    simp only [h2]
    cases hrun : t.isRunning <;> rw [hrun] at h3 <;> simp [h3]
  | @stepTick now t hr ih =>
    obtain ⟨h1, h2, h3⟩ := ih
    rcases lt_or_le (Int.fdiv (now - t.lastUpdateTime) 1000) 1 with he | he
    · rw [PomodoroTimer.tick_none he]
      exact ⟨h1, h2, h3⟩
    · rcases le_or_lt (t.timeLeft - Int.fdiv (now - t.lastUpdateTime) 1000) 0
        with hexp | hexp
      · rw [PomodoroTimer.tick_expire he hexp]
        cases hw : t.isWorkSession
        · rw [PomodoroTimer.onTimerEnd_break (by simp [hw])]
          refine ⟨by simp, by simp, ?_⟩
          simp only [h2]
          cases hrun : t.isRunning <;> rw [hrun] at h3 <;> simp [h3]
        · rw [PomodoroTimer.onTimerEnd_work (by simp [hw])]
          refine ⟨by simp, by simp, ?_⟩
          simp only [h2]
          cases hrun : t.isRunning <;> rw [hrun] at h3 <;> simp [h3]
      · rw [PomodoroTimer.tick_run he hexp]
        exact ⟨by simp; omega, h2, h3⟩

/-- C1: with the timer not running and remainingSeconds = 0, `start()`
in Break phase sets remainingSeconds to `longBreakMinutes*60` exactly
when `completedWorkSessions > 0` and
`completedWorkSessions % sessionsBeforeLongBreak = 0`, and to
`breakMinutes*60` otherwise; in Work phase it sets remainingSeconds to
`workMinutes*60`. -/
theorem claim_start_interval (cfg : Settings) (now : Int) (s : TimerState)
    (hrun : s.isRunning = false) (hz : s.timeLeft = 0) :
    (s.isWorkSession = false →
      (PomodoroTimer.start cfg now s).timeLeft =
        if 0 < s.sessionsCompleted ∧
            s.sessionsCompleted % cfg.sessionsBeforeLongBreak = 0 then
          (cfg.longBreakDuration : Int) * 60
        else (cfg.breakDuration : Int) * 60) ∧
    (s.isWorkSession = true →
      (PomodoroTimer.start cfg now s).timeLeft =
        (cfg.workDuration : Int) * 60) := by
  rw [PomodoroTimer.start_eq_fresh hrun hz]
  constructor
  · intro hw
    simp [PomodoroTimer.nextIntervalSeconds, hw]
  · intro hw
    simp [PomodoroTimer.nextIntervalSeconds, hw]

/-- C1 witness: with settings 25/5/15/4, a Break start at 4 completed
sessions loads the long break (900 s), at 3 the short break (300 s),
and a Work start loads 1500 s. -/
theorem claim_start_interval_witness :
    (PomodoroTimer.start ⟨25, 5, 15, 4⟩ 0
        ⟨0, false, false, 4, 0, false, 0⟩).timeLeft = 900 ∧
    (PomodoroTimer.start ⟨25, 5, 15, 4⟩ 0
        ⟨0, false, false, 3, 0, false, 0⟩).timeLeft = 300 ∧
    (PomodoroTimer.start ⟨25, 5, 15, 4⟩ 0
        ⟨0, false, true, 0, 0, false, 0⟩).timeLeft = 1500 := by
  refine ⟨?_, ?_, ?_⟩
  · have h := (claim_start_interval ⟨25, 5, 15, 4⟩ 0
      ⟨0, false, false, 4, 0, false, 0⟩ rfl rfl).1 rfl
    rw [if_pos (by decide)] at h
    norm_num at h
    exact h
  · have h := (claim_start_interval ⟨25, 5, 15, 4⟩ 0
      ⟨0, false, false, 3, 0, false, 0⟩ rfl rfl).1 rfl
    rw [if_neg (by decide)] at h
    norm_num at h
    exact h
  · have h := (claim_start_interval ⟨25, 5, 15, 4⟩ 0
      ⟨0, false, true, 0, 0, false, 0⟩ rfl rfl).2 rfl
    norm_num at h
    exact h

/-- C5: `reset()` always yields remainingSeconds = 0, Work phase, zero
completed sessions and not running, and cancels any active periodic
driver. -/
theorem claim_reset (s : TimerState) :
    (PomodoroTimer.reset s).timeLeft = 0 ∧
    (PomodoroTimer.reset s).isWorkSession = true ∧
    (PomodoroTimer.reset s).sessionsCompleted = 0 ∧
    (PomodoroTimer.reset s).isRunning = false ∧
    (PomodoroTimer.reset s).hasTimer = false ∧
    (Reachable s → (PomodoroTimer.reset s).activeIntervals = 0) := by
  refine ⟨rfl, rfl, rfl, rfl, rfl, ?_⟩
  intro hr
  obtain ⟨h1, h2, h3⟩ := reachable_inv hr
  simp only [PomodoroTimer.reset, PomodoroTimer.stop_eq, h2]
  cases hrun : s.isRunning <;> rw [hrun] at h3 <;> simp [h3]

/-- C5 witness: resetting a freshly started timer clears its driver. -/
theorem claim_reset_witness :
    (PomodoroTimer.reset (PomodoroTimer.start ⟨25, 5, 15, 4⟩ 0
        (PomodoroTimer.initState 0))).activeIntervals = 0 :=
  (claim_reset _).2.2.2.2.2
    (Reachable.stepStart ⟨25, 5, 15, 4⟩ 0 (Reachable.init 0))

/-- C6: `start()` on a running state is a no-op; starting twice in a
row without an intervening `stop()` equals starting once, and exactly
one periodic driver is active afterwards. -/
theorem claim_start_idempotent (cfg cfg2 : Settings) (now now2 : Int)
    (s : TimerState) (hr : Reachable s) :
    (s.isRunning = true → PomodoroTimer.start cfg now s = s) ∧
    PomodoroTimer.start cfg2 now2 (PomodoroTimer.start cfg now s) =
      PomodoroTimer.start cfg now s ∧
    (PomodoroTimer.start cfg now s).activeIntervals = 1 := by
  obtain ⟨h1, h2, h3⟩ := reachable_inv hr
  refine ⟨fun hrun => PomodoroTimer.start_eq_running hrun,
    PomodoroTimer.start_eq_running (PomodoroTimer.start_isRunning cfg now s),
    ?_⟩
  cases hrun : s.isRunning
  · rw [hrun] at h3
    simp only [Bool.false_eq_true, if_false] at h3
    by_cases hz : s.timeLeft = 0
    · rw [PomodoroTimer.start_eq_fresh hrun hz]
      simp [h3]
    · rw [PomodoroTimer.start_eq_resume hrun hz]
      simp [h3]
  · rw [PomodoroTimer.start_eq_running hrun]
    rw [hrun] at h3
    simpa using h3

/-- C6 witness: starting a fresh timer and starting it again changes
nothing and leaves exactly one active driver. -/
theorem claim_start_idempotent_witness :
    PomodoroTimer.start ⟨25, 5, 15, 4⟩ 7
        (PomodoroTimer.start ⟨25, 5, 15, 4⟩ 0 (PomodoroTimer.initState 0)) =
      PomodoroTimer.start ⟨25, 5, 15, 4⟩ 0 (PomodoroTimer.initState 0) ∧
    (PomodoroTimer.start ⟨25, 5, 15, 4⟩ 0
        (PomodoroTimer.initState 0)).activeIntervals = 1 := by
  have h := claim_start_idempotent ⟨25, 5, 15, 4⟩ ⟨25, 5, 15, 4⟩ 0 7
    (PomodoroTimer.initState 0) (Reachable.init 0)
  exact ⟨h.2.1, h.2.2⟩

/-- C7: `stop()` clears the running flag and cancels the periodic
driver while leaving remainingSeconds, the phase, the completed-session
count (and the tick reference) unchanged. -/
theorem claim_stop_frame (s : TimerState) :
    (PomodoroTimer.stop s).isRunning = false ∧
    (PomodoroTimer.stop s).hasTimer = false ∧
    (PomodoroTimer.stop s).timeLeft = s.timeLeft ∧
    (PomodoroTimer.stop s).isWorkSession = s.isWorkSession ∧
    (PomodoroTimer.stop s).sessionsCompleted = s.sessionsCompleted ∧
    (PomodoroTimer.stop s).lastUpdateTime = s.lastUpdateTime ∧
    (Reachable s → (PomodoroTimer.stop s).activeIntervals = 0) := by
  refine ⟨rfl, rfl, rfl, rfl, rfl, rfl, ?_⟩
  intro hr
  obtain ⟨h1, h2, h3⟩ := reachable_inv hr
  simp only [PomodoroTimer.stop_eq, h2]
  cases hrun : s.isRunning <;> rw [hrun] at h3 <;> simp [h3]

/-- C7 witness: stopping a freshly started timer cancels its driver. -/
theorem claim_stop_frame_witness :
    (PomodoroTimer.stop (PomodoroTimer.start ⟨25, 5, 15, 4⟩ 0
        (PomodoroTimer.initState 0))).activeIntervals = 0 :=
  (claim_stop_frame _).2.2.2.2.2.2
    (Reachable.stepStart ⟨25, 5, 15, 4⟩ 0 (Reachable.init 0))

/-- C10: `start()` on a paused countdown (not running, remainingSeconds
positive) resumes without recomputing the interval: remainingSeconds,
phase and completed sessions are unchanged, running is set, and `now`
is recorded as the tick reference. -/
theorem claim_start_resume (cfg : Settings) (now : Int) (s : TimerState)
    (hrun : s.isRunning = false) (hpos : 0 < s.timeLeft) :
    PomodoroTimer.start cfg now s =
      { s with
          isRunning := true
          lastUpdateTime := now
          hasTimer := true
          activeIntervals := s.activeIntervals + 1 } :=
  PomodoroTimer.start_eq_resume hrun (by omega)

/-- C10 witness: resuming a paused break with 500 s left keeps the 500 s
and only flips the running state and tick reference. -/
theorem claim_start_resume_witness :
    PomodoroTimer.start ⟨25, 5, 15, 4⟩ 77 ⟨500, false, false, 2, 3, false, 0⟩ =
      ⟨500, true, false, 2, 77, true, 1⟩ :=
  claim_start_resume ⟨25, 5, 15, 4⟩ 77 ⟨500, false, false, 2, 3, false, 0⟩
    rfl (by norm_num)

/-- C2 counterexample: with lastTickTimestamp = 0 and now = 1500 ms the
elapsed count is 1, but tick() sets the reference to 1500, not to
0 + 1*1000 = 1000: the sub-second remainder is discarded. -/
theorem claim_tick_reference_counterexample :
    Int.fdiv (1500 - (0 : Int)) 1000 = 1 ∧
    (PomodoroTimer.tick 1500 ⟨10, true, true, 0, 0, true, 1⟩).1.lastUpdateTime
      = 1500 ∧
    (PomodoroTimer.tick 1500
        ⟨10, true, true, 0, 0, true, 1⟩).1.lastUpdateTime ≠ 0 + 1 * 1000 := by
  decide

/-- C2 (amended): tick() computes elapsed = floor((now −
lastTickTimestamp)/1000); if elapsed ≥ 1 it subtracts elapsed from
remainingSeconds and sets the tick reference to now (discarding any
sub-second remainder); if elapsed < 1 it changes nothing; if
remainingSeconds ≤ 0 after the subtraction it triggers the phase
transition. -/
theorem claim_tick_elapsed (now : Int) (s : TimerState) :
    (1 ≤ Int.fdiv (now - s.lastUpdateTime) 1000 →
      0 < s.timeLeft - Int.fdiv (now - s.lastUpdateTime) 1000 →
      PomodoroTimer.tick now s =
        ({ s with
            timeLeft := s.timeLeft - Int.fdiv (now - s.lastUpdateTime) 1000
            lastUpdateTime := now }, none)) ∧
    (Int.fdiv (now - s.lastUpdateTime) 1000 < 1 →
      PomodoroTimer.tick now s = (s, none)) ∧
    (1 ≤ Int.fdiv (now - s.lastUpdateTime) 1000 →
      s.timeLeft - Int.fdiv (now - s.lastUpdateTime) 1000 ≤ 0 →
      PomodoroTimer.tick now s =
        ((PomodoroTimer.onTimerEnd { s with
            timeLeft := s.timeLeft - Int.fdiv (now - s.lastUpdateTime) 1000
            lastUpdateTime := now }).1,
          some (PomodoroTimer.onTimerEnd { s with
            timeLeft := s.timeLeft - Int.fdiv (now - s.lastUpdateTime) 1000
            lastUpdateTime := now }).2)) :=
  ⟨fun he hp => PomodoroTimer.tick_run he hp,
   fun h => PomodoroTimer.tick_none h,
   fun he hp => PomodoroTimer.tick_expire he hp⟩

/-- C2 witness: a tick 1500 ms after the reference subtracts one second
and moves the reference to 1500. -/
theorem claim_tick_elapsed_witness :
    PomodoroTimer.tick 1500 ⟨10, true, true, 0, 0, true, 1⟩ =
      (⟨9, true, true, 0, 1500, true, 1⟩, none) := by
  rw [(claim_tick_elapsed 1500 ⟨10, true, true, 0, 0, true, 1⟩).1
    (by decide) (by decide)]
  decide

/-- C3 counterexample: tick() never consults the running flag: on a
stopped state with two elapsed seconds it still decrements
remainingSeconds, so it is not a no-op when running = false. -/
theorem claim_tick_stopped_counterexample :
    (⟨10, false, true, 0, 0, false, 0⟩ : TimerState).isRunning = false ∧
    (PomodoroTimer.tick 2000 ⟨10, false, true, 0, 0, false, 0⟩).1 ≠
      ⟨10, false, true, 0, 0, false, 0⟩ := by
  decide

/-- C3 (amended): tick() with simulated elapsed time E ≥ 1 decrements
remainingSeconds by exactly E whenever the result stays above 0, and it
does so regardless of the running flag — the stopped-timer no-op holds
operationally only because stop() cancels the periodic driver, so
tick() is not invoked while stopped. -/
theorem claim_tick_decrement (now : Int) (s : TimerState) (E : Int)
    (hE : E = Int.fdiv (now - s.lastUpdateTime) 1000)
    (h1 : 1 ≤ E) (hp : 0 < s.timeLeft - E) :
    (PomodoroTimer.tick now s).1.timeLeft = s.timeLeft - E ∧
    (PomodoroTimer.tick now s).1.isRunning = s.isRunning := by
  subst hE
  rw [PomodoroTimer.tick_run h1 hp]
  exact ⟨rfl, rfl⟩

/-- C3 witness: two elapsed seconds remove exactly two seconds from a
running countdown. -/
theorem claim_tick_decrement_witness :
    (PomodoroTimer.tick 2000 ⟨10, true, true, 0, 0, true, 1⟩).1.timeLeft
      = 10 - 2 ∧
    (PomodoroTimer.tick 2000 ⟨10, true, true, 0, 0, true, 1⟩).1.isRunning
      = true :=
  claim_tick_decrement 2000 ⟨10, true, true, 0, 0, true, 1⟩ 2 (by decide)
    (by decide) (by decide)

/-- C4: when a running reachable timer expires (elapsed ≥ 1 and
remainingSeconds − elapsed ≤ 0), a Work phase ends by incrementing
completedWorkSessions, firing the end-of-work notification, switching
to Break and zeroing remainingSeconds, and a Break phase ends by firing
the end-of-break notification, switching to Work and zeroing
remainingSeconds; in both cases running becomes false and the periodic
driver is cancelled (the next phase is not auto-started). -/
theorem claim_phase_transition (now : Int) (s : TimerState)
    (hr : Reachable s) (hrun : s.isRunning = true)
    (he : 1 ≤ Int.fdiv (now - s.lastUpdateTime) 1000)
    (hexp : s.timeLeft - Int.fdiv (now - s.lastUpdateTime) 1000 ≤ 0) :
    (s.isWorkSession = true →
      PomodoroTimer.tick now s =
        ({ timeLeft := 0
           isRunning := false
           isWorkSession := false
           sessionsCompleted := s.sessionsCompleted + 1
           lastUpdateTime := now
           hasTimer := false
           activeIntervals := 0 },
          some "Work session completed!")) ∧
    (s.isWorkSession = false →
      PomodoroTimer.tick now s =
        ({ timeLeft := 0
           isRunning := false
           isWorkSession := true
           sessionsCompleted := s.sessionsCompleted
           lastUpdateTime := now
           hasTimer := false
           activeIntervals := 0 },
          some "Break time over, ready to work!")) := by
  obtain ⟨h1, h2, h3⟩ := reachable_inv hr
  rw [hrun] at h2 h3
  simp only [if_pos rfl] at h3
  rw [PomodoroTimer.tick_expire he hexp]
  constructor
  · intro hw
    rw [PomodoroTimer.onTimerEnd_work (by simpa using hw)]
    simp [h2, h3]
  · intro hw
    rw [PomodoroTimer.onTimerEnd_break (by simpa using hw)]
    simp [h2, h3]

/-- C4 witness: a fresh 25-minute work session that expires in one tick
ends with one completed session, Break phase, zero seconds, stopped,
and the end-of-work notification. -/
theorem claim_phase_transition_witness :
    PomodoroTimer.tick 1500000
        (PomodoroTimer.start ⟨25, 5, 15, 4⟩ 0 (PomodoroTimer.initState 0)) =
      (⟨0, false, false, 1, 1500000, false, 0⟩,
        some "Work session completed!") := by
  rw [(claim_phase_transition 1500000
      (PomodoroTimer.start ⟨25, 5, 15, 4⟩ 0 (PomodoroTimer.initState 0))
      (Reachable.stepStart ⟨25, 5, 15, 4⟩ 0 (Reachable.init 0))
      (by decide) (by decide) (by decide)).1 (by decide)]
  decide

/-- C9 counterexample: starting the freshly created (reachable) timer
mutates remainingSeconds from 0 to 1500 although running is false in
the pre-state, and the value increases; so remainingSeconds is not only
mutated while running and does not only decrease, and the mutation is
done by start(), not by the phase transition. -/
theorem claim_invariant_counterexample :
    Reachable (PomodoroTimer.initState 0) ∧
    (PomodoroTimer.initState 0).isRunning = false ∧
    (PomodoroTimer.start ⟨25, 5, 15, 4⟩ 0
        (PomodoroTimer.initState 0)).timeLeft ≠
      (PomodoroTimer.initState 0).timeLeft ∧
    (PomodoroTimer.initState 0).timeLeft <
      (PomodoroTimer.start ⟨25, 5, 15, 4⟩ 0
        (PomodoroTimer.initState 0)).timeLeft :=
  ⟨Reachable.init 0, by decide, by decide, by decide⟩

/-- C9 (amended): in every reachable state remainingSeconds is an
integer ≥ 0; tick() and reset() never increase it and stop() leaves it
unchanged, while start() either leaves it unchanged or — on an idle
state with remainingSeconds = 0 — loads the next interval from the
configuration (the expiry phase transition inside tick() resets it to
0, not from configuration). -/
theorem claim_remaining_invariant (s : TimerState) (hr : Reachable s) :
    0 ≤ s.timeLeft ∧
    (∀ now, (PomodoroTimer.tick now s).1.timeLeft ≤ s.timeLeft) ∧
    (PomodoroTimer.stop s).timeLeft = s.timeLeft ∧
    (PomodoroTimer.reset s).timeLeft ≤ s.timeLeft ∧
    (∀ cfg now, (PomodoroTimer.start cfg now s).timeLeft = s.timeLeft ∨
      (s.isRunning = false ∧ s.timeLeft = 0 ∧
        (PomodoroTimer.start cfg now s).timeLeft =
          PomodoroTimer.nextIntervalSeconds cfg s)) := by
  obtain ⟨h1, h2, h3⟩ := reachable_inv hr
  refine ⟨h1, ?_, rfl, h1, ?_⟩
  · intro now
    rcases lt_or_le (Int.fdiv (now - s.lastUpdateTime) 1000) 1 with he | he
    · rw [PomodoroTimer.tick_none he]
    · rcases le_or_lt (s.timeLeft - Int.fdiv (now - s.lastUpdateTime) 1000) 0
        with hexp | hexp
      · rw [PomodoroTimer.tick_expire he hexp]
        cases hw : s.isWorkSession
        · rw [PomodoroTimer.onTimerEnd_break (by simp [hw])]
          exact h1
        · rw [PomodoroTimer.onTimerEnd_work (by simp [hw])]
          exact h1
      · rw [PomodoroTimer.tick_run he hexp]
        show s.timeLeft - Int.fdiv (now - s.lastUpdateTime) 1000 ≤ s.timeLeft
        omega
  · intro cfg now
    cases hrun : s.isRunning
    · by_cases hz : s.timeLeft = 0
      · right
        exact ⟨rfl, hz, by rw [PomodoroTimer.start_eq_fresh hrun hz]⟩
      · left
        rw [PomodoroTimer.start_eq_resume hrun hz]
    · left
      rw [PomodoroTimer.start_eq_running hrun]

/-- C9 witness: the constructor state is reachable and has a
nonnegative remainingSeconds. -/
theorem claim_remaining_invariant_witness :
    0 ≤ (PomodoroTimer.initState 0).timeLeft :=
  (claim_remaining_invariant (PomodoroTimer.initState 0) (Reachable.init 0)).1

/-- `Nat.toDigitsCore` never shortens its accumulator. -/
theorem toDigitsCore_length_mono (b : Nat) :
    ∀ (f n : Nat) (ds : List Char),
      ds.length ≤ (Nat.toDigitsCore b f n ds).length := by
  intro f
  induction f with
  | zero => intro n ds; simp [Nat.toDigitsCore]
  | succ f ih =>
    intro n ds
    simp only [Nat.toDigitsCore]
    split
    · simp
    · calc ds.length ≤ (Nat.digitChar (n % b) :: ds).length := by simp
        _ ≤ _ := ih _ _

/-- With fuel available, `Nat.toDigitsCore` emits at least one digit. -/
theorem toDigitsCore_length_succ (b f n : Nat) (ds : List Char)
    (hf : 1 ≤ f) : ds.length + 1 ≤ (Nat.toDigitsCore b f n ds).length := by
  cases f with
  | zero => omega
  | succ f =>
    simp only [Nat.toDigitsCore]
    split
    · simp
    · have h := toDigitsCore_length_mono b f (n / b)
        (Nat.digitChar (n % b) :: ds)
      simpa using h

/-- Decimal representations of numbers from 10 up take at least two
characters. -/
theorem repr_length_ge_two {n : Nat} (h : 10 ≤ n) :
    2 ≤ (Nat.repr n).length := by
  have hd : ¬ n / 10 = 0 := by
    have : 0 < n / 10 := Nat.div_pos h (by norm_num)
    omega
  have hrepr : Nat.repr n =
      (Nat.toDigitsCore 10 n (n / 10)
        (Nat.digitChar (n % 10) :: [])).asString := by
    simp only [Nat.repr, Nat.toDigits, Nat.toDigitsCore, hd, if_false]
  rw [hrepr]
  have hlen := toDigitsCore_length_succ 10 n (n / 10)
    (Nat.digitChar (n % 10) :: []) (by omega)
  simpa [List.asString, String.length] using hlen

/-- The source's `String(n).padStart(2, '0')` agrees with the
specification's two-digit zero padding on every natural number. -/
theorem padStart2_repr (n : Nat) :
    PomodoroTimer.padStart2 (Nat.repr n) = zeroPad2 n := by
  by_cases h : n < 10
  · interval_cases n <;> decide
  · have h2 : 2 ≤ (Nat.repr n).length := repr_length_ge_two (by omega)
    unfold PomodoroTimer.padStart2 zeroPad2
    rw [if_neg (by omega), if_neg (by omega)]

/-- C8: for every remainingSeconds R ≥ 0, the rendered time string is
MM:SS with minutes = R div 60 and seconds = R mod 60, both zero-padded
to width 2. -/
theorem claim_time_string (R : Nat) :
    PomodoroTimer.timeStr (R : Int) = mmss R := by
  have h1 : Int.fdiv (R : Int) 60 = ((R / 60 : Nat) : Int) :=
    (Int.ofNat_fdiv R 60).symm
  have h2 : Int.tmod (R : Int) 60 = ((R % 60 : Nat) : Int) := rfl
  have h3 : ∀ k : Nat, toString ((k : Nat) : Int) = Nat.repr k := fun k => rfl
  simp only [PomodoroTimer.timeStr, mmss, h1, h2, h3, padStart2_repr]
